import Mathlib

/-
  Shallow embedding of src/src/chrome-service.ts (ChromeService class).

  Browsers are identified by Nat ids; a Browser records its open page ids.
  PoolState models the mutable `chromeSwarm` array plus a log of every
  `browser.close()` call (`closedCalls`) and a fresh-id counter for new
  launches.  AdmState models the `queue` object's `length`/`concurrency`
  together with the `queued` stat counter.  ServerState models the
  process-wide stats plus the swarm length / concurrency snapshot used by
  `addToChromeSwarm`.
-/

namespace ChromeService

/-- Configuration fields of IChromeServiceConfiguration read by chrome-service.ts. -/
structure Config where
  maxConcurrentSessions : Nat
  connectionTimeout : Nat
  maxQueueLength : Nat
  prebootChrome : Bool
  autoQueue : Bool
  keepAlive : Bool
  chromeRefreshTime : Nat
  maxChromeRefreshRetries : Nat
deriving Repr, DecidableEq

/-- A puppeteer browser handle: an id and the list of its open page ids. -/
structure Browser where
  id : Nat
  pages : List Nat
deriving Repr, DecidableEq

/-- The swarm-related mutable state of the service: the `chromeSwarm` array,
the log of ids on which `browser.close()` has been invoked (an id occurring
twice records a double close), and a counter supplying fresh browser ids for
new launches. -/
structure PoolState where
  chromeSwarm : List Browser
  closedCalls : List Nat
  nextId : Nat
deriving Repr, DecidableEq

/-- Effect of `browser.close()` on the service state: records the close call.
The browser is not removed from `chromeSwarm` by closing (the source never
splices the array on close). -/
def closeBrowser (b : Browser) (s : PoolState) : PoolState :=
  { s with closedCalls := s.closedCalls ++ [b.id] }

/-- chrome-service.ts lines 153-157: `reuseChromeInstance` awaits
`instance.pages()`, closes every open page, and pushes the instance onto
`chromeSwarm`. -/
def reuseChromeInstance (b : Browser) (s : PoolState) : PoolState :=
  { s with chromeSwarm := s.chromeSwarm ++ [{ b with pages := [] }] }

/-- A job as used by `runFunction`: the only field the cleanup paths read is
`job.browser`, set once execution binds a handle and never cleared. -/
structure Job where
  browser : Option Browser
deriving Repr, DecidableEq

/-- An HTTP response as written by the service. -/
structure Response where
  status : Nat
  contentType : String
  body : String
deriving Repr, DecidableEq

/-- chrome-service.ts lines 218-226: `job.close`.  If `job.browser` is set it
is recycled (keep-alive) or closed; note the source never clears
`job.browser`, so the job structure is unchanged by this call.  Then a 408 is
sent unless headers were already sent. -/
def jobClose (cfg : Config) (job : Job) (headersSent : Bool) (s : PoolState) :
    PoolState × Option Response :=
  let s1 := match job.browser with
    | some b => if cfg.keepAlive then reuseChromeInstance b s else closeBrowser b s
    | none => s
  (s1,
   if headersSent then none
   else some { status := 408, contentType := "text/plain",
               body := "browserless function has timed-out" })

/-- chrome-service.ts lines 228-233: the `req.on('close')` handler.  Same
browser cleanup as `job.close`, with no response written. -/
def onReqClose (cfg : Config) (job : Job) (s : PoolState) : PoolState :=
  match job.browser with
  | some b => if cfg.keepAlive then reuseChromeInstance b s else closeBrowser b s
  | none => s

/-- Outcome of the handler promise inside a job. -/
inductive HandlerResult where
  | success (data : String) (type : String)
  | failure (message : String)
deriving Repr, DecidableEq

/-- chrome-service.ts lines 190-215: settlement of the handler promise.
On success (then-branch): with keep-alive, `page.close()` closes the page the
job opened and the browser is pushed onto `chromeSwarm`; without keep-alive
the browser is closed.  Then the response is written with the declared
content type (defaulting to text/plain).  On failure (catch-branch): a 500
carrying the error message is sent and the browser is closed outright, with
no keep-alive check. -/
def jobFinish (cfg : Config) (browser : Browser) (jobPage : Nat)
    (r : HandlerResult) (s : PoolState) : PoolState × Response :=
  match r with
  | .success data ty =>
    let s1 := if cfg.keepAlive then
        { s with chromeSwarm :=
            s.chromeSwarm ++ [{ browser with pages := browser.pages.erase jobPage }] }
      else closeBrowser browser s
    (s1, { status := 200, contentType := if ty.isEmpty then "text/plain" else ty,
           body := data })
  | .failure msg =>
    (closeBrowser browser s,
     { status := 500, contentType := "text/plain", body := msg })

/-- The browser launched by `refreshChromeInstance` when it replenishes the
swarm: a fresh handle with no pages recorded. -/
def launchedBrowser (s : PoolState) : Browser := { id := s.nextId, pages := [] }

/-- chrome-service.ts lines 89-96: `refreshChromeInstance` awaits the
instance, calls `chrome.close()`, and pushes a fresh launch exactly when
keep-alive is on and `chromeSwarm.length` is at least
`maxConcurrentSessions` (the closed instance is not removed from the
array). -/
def refreshChromeInstance (cfg : Config) (b : Browser) (s : PoolState) : PoolState :=
  let s1 := closeBrowser b s
  if cfg.keepAlive = true ∧ cfg.maxConcurrentSessions ≤ s1.chromeSwarm.length then
    { s1 with chromeSwarm := s1.chromeSwarm ++ [launchedBrowser s1],
              nextId := s1.nextId + 1 }
  else s1

/-- The queue-related state read and written by `runFunction` admission:
`queue.length`, `queue.concurrency`, and the `queued` stat counter. -/
structure AdmState where
  queueLen : Nat
  concurrency : Nat
  queuedStat : Nat
deriving Repr, DecidableEq

/-- Outcome of `runFunction` admission for one inbound request. -/
inductive AdmitOutcome where
  | rejected
  | queuedJob
  | runJob
deriving Repr, DecidableEq

/-- chrome-service.ts lines 65-70: `autoUpdateQueue`.  When `autoQueue` is on
and `queue.length < queue.concurrency`, the concurrency is set to
`queue.length` if the machine is constrained, else to
`maxConcurrentSessions`. -/
def autoUpdateQueue (cfg : Config) (constrained : Bool) (s : AdmState) : AdmState :=
  if cfg.autoQueue = true ∧ s.queueLen < s.concurrency then
    { s with concurrency :=
        if constrained = true then s.queueLen else cfg.maxConcurrentSessions }
  else s

/-- chrome-service.ts lines 159-173 and 235: the admission part of
`runFunction`.  `queueLength` and `isMachineStrained` are read once at entry;
a full queue rejects immediately with no state change; otherwise the
concurrency is recomputed under `autoQueue` (lines 167-169, textually the
body of `autoUpdateQueue`), the `queued` stat is bumped when the request will
wait behind the concurrency ceiling (lines 171-173, via `onQueued`), and the
job is pushed onto the queue (line 235). -/
def runFunction (cfg : Config) (constrained : Bool) (s : AdmState) :
    AdmState × AdmitOutcome :=
  let queueLength := s.queueLen
  if cfg.maxQueueLength ≤ queueLength then
    (s, .rejected)
  else
    let s1 := if cfg.autoQueue = true ∧ s.queueLen < s.concurrency then
        { s with concurrency :=
            if constrained = true then s.queueLen else cfg.maxConcurrentSessions }
      else s
    let s2 := if s1.concurrency ≤ queueLength then
        { s1 with queuedStat := s1.queuedStat + 1 }
      else s1
    ({ s2 with queueLen := s2.queueLen + 1 },
     if s1.concurrency ≤ queueLength then .queuedJob else .runJob)

/-- chrome-service.ts lines 32-36: the queue is constructed with
`concurrency = maxConcurrentSessions` and starts empty. -/
def initAdmState (cfg : Config) : AdmState :=
  { queueLen := 0, concurrency := cfg.maxConcurrentSessions, queuedStat := 0 }

/-- Queue states reachable from the constructor state through the operations
of the source that touch `queue.length` or `queue.concurrency`: admissions
(`runFunction`), explicit `autoUpdateQueue` calls, and a job leaving the
queue on completion. -/
inductive AdmReachable (cfg : Config) : AdmState → Prop where
  | init : AdmReachable cfg (initAdmState cfg)
  | stepRun (c : Bool) {s : AdmState} :
      AdmReachable cfg s → AdmReachable cfg (runFunction cfg c s).1
  | stepAuto (c : Bool) {s : AdmState} :
      AdmReachable cfg s → AdmReachable cfg (autoUpdateQueue cfg c s)
  | stepDone {s : AdmState} :
      AdmReachable cfg s → AdmReachable cfg { s with queueLen := s.queueLen - 1 }

/-- The process-wide stat counters of BrowserlessServer.currentStat. -/
structure Stats where
  successful : Nat
  error : Nat
  timedout : Nat
  queued : Nat
deriving Repr, DecidableEq

/-- State touched by the queue lifecycle handlers: the stats plus the swarm
length and queue concurrency read by `addToChromeSwarm`. -/
structure ServerState where
  stats : Stats
  swarmLen : Nat
  concurrency : Nat
deriving Repr, DecidableEq

/-- chrome-service.ts lines 98-103: `addToChromeSwarm` pushes a fresh launch
when preboot is on and the swarm is below the queue concurrency. -/
def addToChromeSwarm (cfg : Config) (s : ServerState) : ServerState :=
  if cfg.prebootChrome = true ∧ s.swarmLen < s.concurrency then
    { s with swarmLen := s.swarmLen + 1 }
  else s

/-- chrome-service.ts lines 105-108: `onSessionComplete` increments
`successful` and replenishes the swarm. -/
def onSessionComplete (cfg : Config) (s : ServerState) : ServerState :=
  addToChromeSwarm cfg
    { s with stats := { s.stats with successful := s.stats.successful + 1 } }

/-- chrome-service.ts lines 110-113: `onSessionFail` increments `error` and
replenishes the swarm. -/
def onSessionFail (cfg : Config) (s : ServerState) : ServerState :=
  addToChromeSwarm cfg
    { s with stats := { s.stats with error := s.stats.error + 1 } }

/-- chrome-service.ts lines 115-122: `onTimedOut` runs `job.close`,
increments `timedout`, fires the timeout hook, and then calls
`onSessionComplete` (which increments `successful`). -/
def onTimedOut (cfg : Config) (job : Job) (headersSent : Bool)
    (ps : PoolState) (ss : ServerState) : PoolState × ServerState :=
  let ps1 := (jobClose cfg job headersSent ps).1
  let ss1 := { ss with stats := { ss.stats with timedout := ss.stats.timedout + 1 } }
  (ps1, onSessionComplete cfg ss1)

/-- chrome-service.ts line 134: the two hardening flags appended to every
launch. -/
def hardenedFlags (flags : List String) : List String :=
  flags ++ ["--no-sandbox", "--disable-dev-shm-usage"]

/-- chrome-service.ts lines 130-151: `launchChrome(flags, retries)`.  The
environment `env` abstracts `puppeteer.launch`: given the full flag list and
the attempt index it yields either a browser id or a launch error.  On
failure with `retries > 0` the call recurses with `retries - 1`; with
`retries = 0` the last error is thrown. -/
def launchChrome (env : List String → Nat → Except String Nat)
    (flags : List String) (attempt : Nat) (retries : Nat) : Except String Nat :=
  match env (hardenedFlags flags) attempt with
  | .ok chrome => .ok chrome
  | .error e =>
    match retries with
    | 0 => .error e
    | Nat.succ r => launchChrome env flags (attempt + 1) r

/-- Result of `getChrome`: either a handle shifted from the swarm (with the
remaining swarm) or a fresh launch with the requested flags. -/
inductive GetChromeResult where
  | pooled (b : Browser) (rest : List Browser)
  | launched (flags : List String)
deriving Repr, DecidableEq

/-- chrome-service.ts lines 54-59: `getChrome(flags?)`.  The first statement
evaluates `flags.length`; when the optional argument is omitted (`none`,
i.e. `undefined`) this throws a TypeError.  Otherwise the swarm is used
exactly when no flags were passed and the swarm is non-empty (`shift` takes
the front); in every other case a fresh launch with the given flags is
returned. -/
def getChrome (swarm : List Browser) (flags : Option (List String)) :
    Except String GetChromeResult :=
  match flags with
  | none =>
    Except.error "TypeError: Cannot read properties of undefined (reading length)"
  | some fl =>
    match fl, swarm with
    | [], b :: rest => Except.ok (.pooled b rest)
    | fl, _ => Except.ok (.launched fl)

/-
  Concrete states used to exercise the model.
-/

/-- A configuration with keep-alive enabled. -/
def cfgKA : Config :=
  { maxConcurrentSessions := 2, connectionTimeout := 30000, maxQueueLength := 10,
    prebootChrome := false, autoQueue := false, keepAlive := true,
    chromeRefreshTime := 1800000, maxChromeRefreshRetries := 5 }

/-- The same configuration with keep-alive disabled. -/
def cfgNoKA : Config := { cfgKA with keepAlive := false }

/-- An empty idle pool. -/
def emptyPool : PoolState := { chromeSwarm := [], closedCalls := [], nextId := 8 }

/-- A browser handle with one open page (the page the job opened). -/
def browser7 : Browser := { id := 7, pages := [0] }

/-- A job bound to `browser7`. -/
def job7 : Job := { browser := some browser7 }

/-- A pool holding one idle handle, below the configured maximum of 2. -/
def poolC5 : PoolState :=
  { chromeSwarm := [{ id := 0, pages := [] }], closedCalls := [], nextId := 1 }

/-
  Theorems settling the claims.
-/

/-- Claim C1 (violated by the code): with keep-alive enabled, the success
cleanup pushes the job's handle onto the idle pool but `job.browser` is never
cleared, so the handle is simultaneously in the pool and still bound to the
job; when the request's close event then fires, the disconnect handler
pushes the same handle a second time, leaving handle 7 twice in the idle
pool — exclusive ownership is not preserved. -/
theorem ownership_violation_success_then_disconnect :
    job7.browser = some browser7
    ∧ (jobFinish cfgKA browser7 0 (.success "ok" "text/plain") emptyPool).1.chromeSwarm
        = [{ id := 7, pages := [] }]
    ∧ (onReqClose cfgKA job7
        (jobFinish cfgKA browser7 0 (.success "ok" "text/plain") emptyPool).1).chromeSwarm
        = [{ id := 7, pages := [] }, { id := 7, pages := [] }] := by
  decide

/-- Claim C2 (violated by the code): `job.close` is not idempotent.  Because
`job.browser` is never cleared, a second invocation returns the handle to
the pool a second time (keep-alive on) or calls `browser.close()` a second
time (keep-alive off), so two invocations do not produce the same resource
state as one. -/
theorem jobClose_not_idempotent :
    (jobClose cfgKA job7 true emptyPool).1.chromeSwarm = [{ id := 7, pages := [] }]
    ∧ (jobClose cfgKA job7 true (jobClose cfgKA job7 true emptyPool).1).1.chromeSwarm
        = [{ id := 7, pages := [] }, { id := 7, pages := [] }]
    ∧ (jobClose cfgNoKA job7 true emptyPool).1.closedCalls = [7]
    ∧ (jobClose cfgNoKA job7 true (jobClose cfgNoKA job7 true emptyPool).1).1.closedCalls
        = [7, 7] := by
  decide

/-- Claim C5 counterexample: keep-alive is enabled and closing the single
pooled handle would leave the pool (1 handle) below the configured maximum
of 2, yet `refreshChromeInstance` launches no replacement — the swarm and
the fresh-id counter are unchanged; only the close is recorded. -/
theorem refresh_no_replacement_below_max :
    cfgKA.keepAlive = true
    ∧ poolC5.chromeSwarm.length - 1 < cfgKA.maxConcurrentSessions
    ∧ refreshChromeInstance cfgKA { id := 0, pages := [] } poolC5
        = { chromeSwarm := [{ id := 0, pages := [] }], closedCalls := [0], nextId := 1 } := by
  decide

/-- Claim C5 as amended: `refreshChromeInstance` always records a close of
the processed handle (without removing it from the pool), and launches a
replacement exactly when keep-alive is enabled and the pool size is at least
the configured maximum concurrent sessions. -/
theorem refreshChromeInstance_replacement_iff (cfg : Config) (b : Browser) (s : PoolState) :
    (refreshChromeInstance cfg b s).closedCalls = s.closedCalls ++ [b.id]
    ∧ (refreshChromeInstance cfg b s).chromeSwarm =
        (if cfg.keepAlive = true ∧ cfg.maxConcurrentSessions ≤ s.chromeSwarm.length
         then s.chromeSwarm ++ [{ id := s.nextId, pages := [] }]
         else s.chromeSwarm) := by
  simp only [refreshChromeInstance, closeBrowser, launchedBrowser]
  split <;> simp

/-- Claim C7: when the handler promise rejects, the response is a 500
carrying the failure message, the browser is closed outright for every
configuration (the catch branch never consults keep-alive), and the idle
pool is unchanged — the handle is never recycled. -/
theorem handler_failure_isolation (cfg : Config) (b : Browser) (p : Nat)
    (msg : String) (s : PoolState) :
    jobFinish cfg b p (.failure msg) s
      = ({ s with closedCalls := s.closedCalls ++ [b.id] },
         { status := 500, contentType := "text/plain", body := msg })
    ∧ (jobFinish cfg b p (.failure msg) s).1.chromeSwarm = s.chromeSwarm :=
  ⟨rfl, rfl⟩

/-- Claim C8 counterexample: with keep-alive enabled, a successful job whose
handler opened an extra page (page 1) returns its handle to the idle pool
with that page still open — the success path closes only the job's own page,
not all pages, so the recycled handle does not have zero open pages. -/
theorem keepAlive_recycle_keeps_handler_pages :
    cfgKA.keepAlive = true
    ∧ (jobFinish cfgKA { id := 3, pages := [0, 1] } 0
        (.success "d" "text/plain") emptyPool).1.chromeSwarm
        = [{ id := 3, pages := [1] }]
    ∧ ∃ b, b ∈ (jobFinish cfgKA { id := 3, pages := [0, 1] } 0
        (.success "d" "text/plain") emptyPool).1.chromeSwarm ∧ b.pages ≠ [] := by
  decide

/-- Claim C8 as amended: on success, with keep-alive enabled the job's own
page is closed and the handle is pushed onto the idle pool (pages the
handler opened remain open on the pooled handle); with keep-alive disabled
the handle is closed and the pool is unchanged. -/
theorem jobFinish_success_recycling (cfg : Config) (b : Browser) (p : Nat)
    (data ty : String) (s : PoolState) :
    (jobFinish cfg b p (.success data ty) s).1.chromeSwarm
      = (if cfg.keepAlive = true
         then s.chromeSwarm ++ [{ b with pages := b.pages.erase p }]
         else s.chromeSwarm)
    ∧ (jobFinish cfg b p (.success data ty) s).1.closedCalls
      = (if cfg.keepAlive = true then s.closedCalls else s.closedCalls ++ [b.id]) := by
  simp only [jobFinish, closeBrowser]
  cases h : cfg.keepAlive <;> simp [h]

/-- Claim C9: the timeout handler increments the `timedout` counter and, by
delegating to `onSessionComplete`, also increments the `successful` counter,
so a timed-out job is counted as a success as well. -/
theorem onTimedOut_counts_success_too (cfg : Config) (job : Job) (hs : Bool)
    (ps : PoolState) (ss : ServerState) :
    ((onTimedOut cfg job hs ps ss).2).stats.timedout = ss.stats.timedout + 1
    ∧ ((onTimedOut cfg job hs ps ss).2).stats.successful = ss.stats.successful + 1 := by
  simp only [onTimedOut, onSessionComplete, addToChromeSwarm]
  split <;> simp

/-- Helper: a concurrency recompute by `autoUpdateQueue` never raises the
concurrency above `maxConcurrentSessions` when it was below it. -/
theorem autoUpdateQueue_concurrency_le (cfg : Config) (c : Bool) (s : AdmState)
    (h : s.concurrency ≤ cfg.maxConcurrentSessions) :
    (autoUpdateQueue cfg c s).concurrency ≤ cfg.maxConcurrentSessions := by
  unfold autoUpdateQueue
  split
  · next h1 =>
    dsimp only
    split
    · exact Nat.le_trans (Nat.le_of_lt h1.2) h
    · exact Nat.le_refl _
  · exact h

/-- Helper: the concurrency after `runFunction` is the input concurrency on
rejection, and otherwise exactly what the inline recompute (the body of
`autoUpdateQueue`) yields. -/
theorem runFunction_concurrency_eq (cfg : Config) (c : Bool) (s : AdmState) :
    (runFunction cfg c s).1.concurrency =
      (if cfg.maxQueueLength ≤ s.queueLen then s.concurrency
       else (autoUpdateQueue cfg c s).concurrency) := by
  simp only [runFunction, autoUpdateQueue]
  split_ifs <;> rfl

/-- Helper: every reachable queue state keeps its concurrency at or below
the configured maximum (the constructor starts it there). -/
theorem admReachable_concurrency_le (cfg : Config) (s : AdmState)
    (h : AdmReachable cfg s) : s.concurrency ≤ cfg.maxConcurrentSessions := by
  induction h with
  | init => exact Nat.le_refl _
  | stepRun c _ ih =>
    rw [runFunction_concurrency_eq]
    split
    · exact ih
    · exact autoUpdateQueue_concurrency_le cfg c _ ih
  | stepAuto c _ ih => exact autoUpdateQueue_concurrency_le cfg c _ ih
  | stepDone _ ih => exact ih

/-- Claim C3: for an admitted request (queue not full), when autoQueue is on
and the pending length is strictly below the current concurrency, the
concurrency is recomputed to the pending length if the machine is
constrained and to `maxConcurrentSessions` otherwise; and in every case
(from any reachable queue state) the concurrency after `runFunction` never
exceeds `maxConcurrentSessions`. -/
theorem runFunction_concurrency_recompute (cfg : Config) (c : Bool) (s : AdmState)
    (hr : AdmReachable cfg s) :
    (runFunction cfg c s).1.concurrency ≤ cfg.maxConcurrentSessions
    ∧ (s.queueLen < cfg.maxQueueLength → cfg.autoQueue = true →
        s.queueLen < s.concurrency →
        (runFunction cfg c s).1.concurrency
          = (if c = true then s.queueLen else cfg.maxConcurrentSessions)) := by
  constructor
  · exact admReachable_concurrency_le cfg _ (AdmReachable.stepRun c hr)
  · intro h1 h2 h3
    rw [runFunction_concurrency_eq]
    rw [if_neg (Nat.not_le.mpr h1)]
    unfold autoUpdateQueue
    rw [if_pos ⟨h2, h3⟩]

/-- A configuration exercising autoQueue. -/
def cfgW : Config :=
  { maxConcurrentSessions := 10, connectionTimeout := 1000, maxQueueLength := 5,
    prebootChrome := true, autoQueue := true, keepAlive := true,
    chromeRefreshTime := 100, maxChromeRefreshRetries := 3 }

/-- Witness for the C3 theorem at the reachable constructor state with the
machine constrained: the concurrency is throttled to the pending length 0
and stays at or below the maximum 10. -/
theorem runFunction_concurrency_recompute_witness :
    (runFunction cfgW true (initAdmState cfgW)).1.concurrency
        ≤ cfgW.maxConcurrentSessions
    ∧ (runFunction cfgW true (initAdmState cfgW)).1.concurrency
        = (initAdmState cfgW).queueLen := by
  have h := runFunction_concurrency_recompute cfgW true (initAdmState cfgW)
    AdmReachable.init
  refine ⟨h.1, ?_⟩
  have h2 := h.2 (by decide) (by decide) (by decide)
  simpa using h2

/-- Claim C4: a request arriving with the pending length at or above
`maxQueueLength` is rejected with no state change (no job pushed, no counter
moved); a request arriving strictly below it is never rejected and is pushed
onto the queue. -/
theorem runFunction_admission_boundary (cfg : Config) (c : Bool) (s : AdmState) :
    (cfg.maxQueueLength ≤ s.queueLen → runFunction cfg c s = (s, .rejected))
    ∧ (s.queueLen < cfg.maxQueueLength →
        (runFunction cfg c s).2 ≠ .rejected
        ∧ (runFunction cfg c s).1.queueLen = s.queueLen + 1) := by
  constructor
  · intro h
    simp only [runFunction]
    rw [if_pos h]
  · intro h
    have hn : ¬ cfg.maxQueueLength ≤ s.queueLen := Nat.not_le.mpr h
    refine ⟨?_, ?_⟩
    · simp only [runFunction]
      rw [if_neg hn]
      split_ifs <;> simp
    · simp only [runFunction]
      rw [if_neg hn]
      split_ifs <;> rfl

/-- A queue state at the configured maximum queue length of `cfgW`. -/
def sFull : AdmState := { queueLen := 5, concurrency := 10, queuedStat := 0 }

/-- A queue state strictly below the maximum queue length of `cfgW`. -/
def sOpen : AdmState := { queueLen := 3, concurrency := 10, queuedStat := 0 }

/-- Witness for the C4 theorem: with max queue length 5, a request at
pending length 5 is rejected unchanged, and a request at pending length 3 is
accepted and pushed. -/
theorem runFunction_admission_boundary_witness :
    runFunction cfgW false sFull = (sFull, .rejected)
    ∧ ((runFunction cfgW false sOpen).2 ≠ .rejected
       ∧ (runFunction cfgW false sOpen).1.queueLen = sOpen.queueLen + 1) :=
  ⟨(runFunction_admission_boundary cfgW false sFull).1 (by decide),
   (runFunction_admission_boundary cfgW false sOpen).2 (by decide)⟩

/-- Helper: a launch attempt that succeeds returns its handle with no
further recursion. -/
theorem launchChrome_ok (env : List String → Nat → Except String Nat)
    (flags : List String) (a r c : Nat)
    (h : env (hardenedFlags flags) a = .ok c) :
    launchChrome env flags a r = .ok c := by
  conv_lhs => rw [launchChrome.eq_def]
  rw [h]

/-- Helper: a failing attempt with no retries left surfaces that attempt's
error. -/
theorem launchChrome_error_zero (env : List String → Nat → Except String Nat)
    (flags : List String) (a : Nat) (e : String)
    (h : env (hardenedFlags flags) a = .error e) :
    launchChrome env flags a 0 = .error e := by
  conv_lhs => rw [launchChrome.eq_def]
  rw [h]

/-- Helper: a failing attempt with retries left recurses on the next attempt
with one fewer retry. -/
theorem launchChrome_error_succ (env : List String → Nat → Except String Nat)
    (flags : List String) (a r : Nat) (e : String)
    (h : env (hardenedFlags flags) a = .error e) :
    launchChrome env flags a (r + 1) = launchChrome env flags (a + 1) r := by
  conv_lhs => rw [launchChrome.eq_def]
  rw [h]

/-- Helper: behaviour of `launchChrome` starting at an arbitrary attempt
offset, by induction on the remaining retries. -/
theorem launchChrome_spec_aux (env : List String → Nat → Except String Nat)
    (flags : List String) :
    ∀ (r a : Nat),
      ((∀ i, i ≤ r → ∃ e, env (hardenedFlags flags) (a + i) = .error e) →
        launchChrome env flags a r = env (hardenedFlags flags) (a + r))
      ∧ (∀ k c, k ≤ r →
          (∀ i, i < k → ∃ e, env (hardenedFlags flags) (a + i) = .error e) →
          env (hardenedFlags flags) (a + k) = .ok c →
          launchChrome env flags a r = .ok c) := by
  intro r
  induction r with
  | zero =>
    intro a
    constructor
    · intro hall
      obtain ⟨e, he⟩ := hall 0 (Nat.le_refl 0)
      rw [Nat.add_zero] at he ⊢
      rw [launchChrome_error_zero env flags a e he, he]
    · intro k c hk hfail hsucc
      have hk0 : k = 0 := Nat.le_zero.mp hk
      subst hk0
      rw [Nat.add_zero] at hsucc
      exact launchChrome_ok env flags a 0 c hsucc
  | succ r ih =>
    intro a
    constructor
    · intro hall
      obtain ⟨e, he⟩ := hall 0 (Nat.zero_le _)
      rw [Nat.add_zero] at he
      rw [launchChrome_error_succ env flags a r e he]
      have hrec := (ih (a + 1)).1 (fun i hi => by
        obtain ⟨e2, he2⟩ := hall (i + 1) (Nat.succ_le_succ hi)
        refine ⟨e2, ?_⟩
        have hidx : a + 1 + i = a + (i + 1) := by omega
        rw [hidx]
        exact he2)
      rw [hrec]
      have hidx : a + 1 + r = a + (r + 1) := by omega
      rw [hidx]
    · intro k c hk hfail hsucc
      cases k with
      | zero =>
        rw [Nat.add_zero] at hsucc
        exact launchChrome_ok env flags a (r + 1) c hsucc
      | succ k =>
        obtain ⟨e, he⟩ := hfail 0 (Nat.succ_pos k)
        rw [Nat.add_zero] at he
        rw [launchChrome_error_succ env flags a r e he]
        refine (ih (a + 1)).2 k c (Nat.le_of_succ_le_succ hk)
          (fun i hi => ?_) ?_
        · obtain ⟨e2, he2⟩ := hfail (i + 1) (Nat.succ_lt_succ hi)
          refine ⟨e2, ?_⟩
          have hidx : a + 1 + i = a + (i + 1) := by omega
          rw [hidx]
          exact he2
        · have hidx : a + 1 + k = a + (k + 1) := by omega
          rw [hidx]
          exact hsucc

/-- Claim C6: `launchChrome(flags, r)` makes up to `r` additional attempts
beyond the first.  If attempts `0..r` all fail, the result is the final
attempt's own outcome (its launch error is surfaced); if the first failure
run stops at attempt `k ≤ r` (so `k` may be the last allowed attempt) and
attempt `k` succeeds, the handle from attempt `k` is returned with no
further attempts. -/
theorem launchChrome_retry_contract (env : List String → Nat → Except String Nat)
    (flags : List String) (r k c : Nat) :
    ((∀ i, i ≤ r → ∃ e, env (hardenedFlags flags) i = .error e) →
      launchChrome env flags 0 r = env (hardenedFlags flags) r)
    ∧ (k ≤ r → (∀ i, i < k → ∃ e, env (hardenedFlags flags) i = .error e) →
      env (hardenedFlags flags) k = .ok c →
      launchChrome env flags 0 r = .ok c) := by
  have h := launchChrome_spec_aux env flags r 0
  simp only [Nat.zero_add] at h
  exact ⟨h.1, fun hk hfail hsucc => h.2 k c hk hfail hsucc⟩

/-- A launch environment that fails on attempts 0 and 1 and succeeds on
attempt 2. -/
def envSucc2 : List String → Nat → Except String Nat :=
  fun _ n => if n = 2 then .ok 42 else .error "spawn failure"

/-- A launch environment that always fails. -/
def envFailAll : List String → Nat → Except String Nat :=
  fun _ _ => .error "spawn failure"

/-- Witness for the C6 theorem: with 2 retries, a launch that succeeds only
on the last allowed attempt returns its handle; with 1 retry and every
attempt failing, the error is surfaced. -/
theorem launchChrome_retry_contract_witness :
    launchChrome envSucc2 [] 0 2 = .ok 42
    ∧ launchChrome envFailAll [] 0 1 = .error "spawn failure" := by
  constructor
  · exact (launchChrome_retry_contract envSucc2 [] 2 2 42).2 (Nat.le_refl 2)
      (fun i hi => ⟨"spawn failure", by
        have hne : i ≠ 2 := by omega
        simp [envSucc2, hne]⟩)
      (by simp [envSucc2])
  · exact ((launchChrome_retry_contract envFailAll [] 1 0 0).1
      (fun i _ => ⟨"spawn failure", rfl⟩)).trans rfl

/-- Claim C10: `getChrome` with the flags argument omitted throws (reading
`.length` of undefined); with an array argument it is total, returning the
front pooled handle exactly when the flags are empty and the pool is
non-empty, and a fresh launch with the given flags otherwise. -/
theorem getChrome_contract (swarm : List Browser) (fl : List String) :
    getChrome swarm none
      = Except.error "TypeError: Cannot read properties of undefined (reading length)"
    ∧ (fl = [] → ∀ b rest, swarm = b :: rest →
        getChrome swarm (some fl) = .ok (.pooled b rest))
    ∧ (fl ≠ [] ∨ swarm = [] → getChrome swarm (some fl) = .ok (.launched fl)) := by
  refine ⟨rfl, ?_, ?_⟩
  · rintro rfl b rest rfl
    rfl
  · rintro (hfl | rfl)
    · cases fl with
      | nil => exact absurd rfl hfl
      | cons x xs => cases swarm <;> rfl
    · cases fl <;> rfl

/-- Witness for the C10 theorem: an empty flag list takes the pooled handle
from the front of a non-empty swarm, and a non-empty flag list forces a
fresh launch. -/
theorem getChrome_contract_witness :
    getChrome [{ id := 1, pages := [] }] (some [])
      = .ok (.pooled { id := 1, pages := [] } [])
    ∧ getChrome [] (some ["--headless"]) = .ok (.launched ["--headless"]) :=
  ⟨(getChrome_contract [{ id := 1, pages := [] }] []).2.1 rfl _ _ rfl,
   (getChrome_contract [] ["--headless"]).2.2 (Or.inl (by simp))⟩

end ChromeService
